import Mathlib

/-!
Shallow embedding of the MasterFit scheduling-grid client
(src/main.js and the two overlapping revisions src/unnamed/part_000,
src/unnamed/part_001).  Pure fragments of the script become Lean
functions; the asynchronous network is passed in as an explicit oracle
argument; the DOM side effects that the claims talk about (which dialog
opens, which alert text is shown, whether the grid re-renders) become
fields of explicit result records.  JavaScript numbers used as ids are
modelled as `Int`, absent fields as `Option`, and JS truthiness is made
explicit wherever the source relies on it.
-/

namespace MasterFit

/-- JS truthiness of an optional numeric field (`undefined`/`null` and `0`
are falsy, every other number is truthy). -/
def truthyId : Option Int → Bool
  | none => false
  | some v => v != 0

/-- JS `String(x)` applied to an optional numeric field
(`String(undefined) = "undefined"`). -/
def jsStrOfId : Option Int → String
  | none => "undefined"
  | some n => toString n

/-- JS `String(x)` applied to an optional string field. -/
def jsStrS : Option String → String
  | none => "undefined"
  | some s => s

/-- ASCII lower-casing of one character (models `.toLowerCase()` /
case-insensitive regex flags for the ASCII labels this program
handles). -/
def asciiLowerChar (c : Char) : Char :=
  if 65 ≤ c.toNat ∧ c.toNat ≤ 90 then Char.ofNat (c.toNat + 32) else c

/-- ASCII lower-casing of a string. -/
def asciiLower (s : String) : String := ⟨s.data.map asciiLowerChar⟩

/-- A slot object as delivered by the slots endpoint and stored in
`slotsMap` (fields used by the code under verification). -/
structure Slot where
  Appoitment_Id : Option Int := none
  Resource_Id : Option String := none
  ResourceId : Option String := none
  SlotDate : Option String := none
  TimeFrom : String := ""
  TimeTo : String := ""
  Status : Option Int := none
  Description_En : Option String := none
  Description_Ar : Option String := none
  Notes : Option String := none
  Register_Id : Option Int := none
  deriving DecidableEq

/-- The module-level `registeredSlot` value
`{ Appoitment_Id, Resource_Id, TimeFrom, TimeTo }`. -/
structure Registration where
  Appoitment_Id : Option Int
  Resource_Id : String
  TimeFrom : String
  TimeTo : String
  deriving DecidableEq

/-- A resource object (`{ ID, Name_En }`) after the
`ID: String(r.ID)` normalisation in `loadAndRender`. -/
structure Resource where
  ID : String
  Name_En : Option String := none
  deriving DecidableEq

/-! ## CONFIG (source constants) -/

def SLOT_MIN_TIME : Nat := 8

def SLOT_MAX_TIME : Nat := 17

def SLOT_DURATION_MIN : Nat := 30

def RESPECT_SERVER_REGISTERED : Bool := false

def CUSTOMER_ID : Int := 1

/-! ## Time Grid Generator (`generateRowTimes`) -/

/-- A row timestamp `new Date(y, m-1, d, h, mins, 0)`; we record the
calendar components directly (month kept 1-based as parsed). -/
structure RowTime where
  year : Nat
  month : Nat
  day : Nat
  hour : Nat
  minute : Nat
  deriving DecidableEq

/-- Minute-of-day of a row timestamp (the quantity that orders rows of a
single date). -/
def RowTime.timeKey (r : RowTime) : Nat := r.hour * 60 + r.minute

/-- Split a character list on `'-'` (models `dateStr.split('-')`). -/
def splitOnDash : List Char → List (List Char)
  | [] => [[]]
  | c :: rest =>
    let r := splitOnDash rest
    if c = '-' then [] :: r
    else
      match r with
      | [] => [[c]]
      | x :: xs => (c :: x) :: xs

/-- Parse a non-empty all-digit character list as a natural number
(`parseInt(s,10)` restricted to the well-formed inputs the claims
quantify over; anything else is NaN, modelled as `none`). -/
def charsToNat : List Char → Option Nat
  | [] => none
  | l =>
    if l.all Char.isDigit then
      some (l.foldl (fun n c => n * 10 + (c.toNat - 48)) 0)
    else none

/-- Model of `dateStr.split('-').map(s => parseInt(s,10))` for a well-formed
`yyyy-mm-dd` string. -/
def parseYmd (s : String) : Option (Nat × Nat × Nat) :=
  match (splitOnDash s.data).map charsToNat with
  | [some y, some m, some d] => some (y, m, d)
  | _ => none

/-- The inner loop `for (mins = 0; mins < 60; mins += step)`:
the minute offsets emitted for one hour. -/
def minuteSteps (step : Nat) : List Nat :=
  (List.range ((60 + step - 1) / step)).map (· * step)

/-- The function `generateRowTimes` parametrised by the CONFIG values it reads
(`SLOT_MIN_TIME`, `SLOT_MAX_TIME`, `SLOT_DURATION_MIN`) and by the parsed
date: `for (h = startH; h <= endH; h++) for (mins = 0; mins < 60; mins += step)
rows.push(new Date(y, m-1, d, h, mins, 0))`. -/
def generateRowTimesP (startH endH step y m d : Nat) : List RowTime :=
  ((List.range (endH + 1 - startH)).map (startH + ·)).flatMap
    (fun h => (minuteSteps step).map (fun mn => ⟨y, m, d, h, mn⟩))

/-- Model of `generateRowTimes(dateStr)` for given CONFIG values. A malformed date
string would produce JS `Invalid Date` rows; the claims only quantify
over well-formed dates, so that branch returns `[]` here. -/
def generateRowTimesWith (startH endH step : Nat) (dateStr : String) : List RowTime :=
  match parseYmd dateStr with
  | some (y, m, d) => generateRowTimesP startH endH step y m d
  | none => []

/-- Model of `generateRowTimes(dateStr)` with the source CONFIG. -/
def generateRowTimes (dateStr : String) : List RowTime :=
  generateRowTimesWith SLOT_MIN_TIME SLOT_MAX_TIME SLOT_DURATION_MIN dateStr

/-! ## Grid Renderer classification and slot-click dispatch -/

/-- Contiguous-sublist test used to model a regular-expression literal
search (`pat` occurs contiguously inside the second list). -/
def isSubListOf (pat : List Char) : List Char → Bool
  | [] => pat.isEmpty
  | c :: rest => pat.isPrefixOf (c :: rest) || isSubListOf pat rest

/-- Model of `/available/i.test(matched.Description_En || '')`. -/
def availableTest (desc : Option String) : Bool :=
  isSubListOf ("available").data (asciiLower (desc.getD (""))).data

/-- Model of `const serverRegistered = s.Register_Id && Number(s.Register_Id) === custId`
(as the boolean value of the guard; `Register_Id` of `0` is falsy). -/
def serverRegistered (custId : Int) (s : Slot) : Bool :=
  match s.Register_Id with
  | some v => v != 0 && v == custId
  | none => false

/-- The tracker disjunct of `isRegistered` in `renderGrid`:
`registeredSlot && registeredSlot.Appoitment_Id && registeredSlot.Appoitment_Id === matched.Appoitment_Id`. -/
def trackerShows (tracker : Option Registration) (s : Slot) : Bool :=
  match tracker with
  | some reg => truthyId reg.Appoitment_Id && reg.Appoitment_Id == s.Appoitment_Id
  | none => false

/-- The three visual classes assigned by `renderGrid`. -/
inductive SlotClass
  | registered
  | available
  | booked
  deriving DecidableEq

/-- The classification branch of `renderGrid` (main.js lines 294-307):
registered if the tracker shows the slot or the trust flag accepts the
server owner, else available on `Status === 1` or an `/available/i`
label, else booked. -/
def classifySlot (tracker : Option Registration) (respectFlag : Bool) (custId : Int)
    (matched : Slot) : SlotClass :=
  if trackerShows tracker matched || (respectFlag && serverRegistered custId matched) then
    .registered
  else if matched.Status == some 1 || availableTest matched.Description_En then
    .available
  else
    .booked

/-- What `onSlotClick` does with the click: surface the already-registered
alert, or open the register dialog, or open the update dialog. -/
inductive ClickOutcome
  | alreadyRegisteredNotice
  | openRegister (slot : Slot) (resource : Resource) (customerId : Int)
  | openUpdate (old : Registration) (slot : Slot) (resource : Resource) (customerId : Int)
  deriving DecidableEq

/-- Model of `onSlotClick(slotObj, resource)` (main.js lines 332-349; identical in
part_000 lines 499-516 apart from where `custId` is read).  Note the
tracker disjunct here has no truthiness guard on the tracker's
`Appoitment_Id`, unlike `renderGrid`. -/
def onSlotClick (tracker : Option Registration) (respectFlag : Bool) (custId : Int)
    (slotObj : Slot) (resource : Resource) : ClickOutcome :=
  let isRegistered :=
    (match tracker with
     | some reg => reg.Appoitment_Id == slotObj.Appoitment_Id
     | none => false) || (respectFlag && serverRegistered custId slotObj)
  if isRegistered then
    .alreadyRegisteredNotice
  else
    match tracker with
    | none => .openRegister slotObj resource custId
    | some reg => .openUpdate reg slotObj resource custId

/-! ## Remote Gateway -/

/-- The process-wide transport flag (`MODE`, persisted in localStorage). -/
inductive Mode
  | live
  | mock
  deriving DecidableEq

/-- The possible outcomes of `apiGet` on the slots endpoint, supplied as
an oracle: a thrown transport/parse error, a parsed
`{ result: "failed", msg_en }` object, or a parsed slot array. -/
inductive GetOutcome
  | throwErr
  | failedResult (msg_en : Option String)
  | okSlots (slots : List Slot)
  deriving DecidableEq

/-- Result of `fetchSlotsForResource`: new value of `MODE`, the value (if
any) written to localStorage, and the returned slot list.  The function
is total: no error escapes to the caller. -/
structure SlotsFetch where
  mode : Mode
  persistedMode : Option Mode
  slots : List Slot
  deriving DecidableEq

/-- The fixture key `` `${customerId}|${dateStr}|${resourceId}` ``. -/
def mockKey (customerId : Int) (dateStr resourceId : String) : String :=
  s!"{customerId}|{dateStr}|{resourceId}"

/-- The fixture map `MOCK.slots` from the source. -/
def MOCK_slots : List (String × List Slot) :=
  [("1|2025-11-03|1",
    [{ Appoitment_Id := some 7909, SlotDate := some ("2025-11-03"),
       TimeFrom := "2025-11-03T09:00:00", TimeTo := "2025-11-03T09:30:00",
       Status := some 1, Description_En := some ("Available") },
     { Appoitment_Id := some 7910, SlotDate := some ("2025-11-03"),
       TimeFrom := "2025-11-03T10:00:00", TimeTo := "2025-11-03T10:30:00",
       Status := some 2, Description_En := some ("Available") }]),
   ("1|2025-11-03|2",
    [{ Appoitment_Id := some 7920, SlotDate := some ("2025-11-03"),
       TimeFrom := "2025-11-03T09:00:00", TimeTo := "2025-11-03T09:30:00",
       Status := some 1, Description_En := some ("Available") },
     { Appoitment_Id := some 7921, SlotDate := some ("2025-11-03"),
       TimeFrom := "2025-11-03T11:00:00", TimeTo := "2025-11-03T11:30:00",
       Status := some 1, Description_En := some ("Available"),
       Register_Id := some CUSTOMER_ID }])]

/-- Model of `fetchSlotsForResource(customerId, dateStr, resourceId)`
(main.js lines 123-136).  In mock mode `apiGet` itself throws
(`mock-mode`), so the oracle outcome is replaced by a throw; any throw or
a `{result:"failed"}` response flips `MODE` to mock, persists it, and
returns the fixture list for the exact key (or `[]`). -/
def fetchSlotsForResource (mode : Mode) (net : GetOutcome) (customerId : Int)
    (dateStr resourceId : String) : SlotsFetch :=
  let outcome := if mode == Mode.mock then GetOutcome.throwErr else net
  match outcome with
  | .okSlots data => { mode := mode, persistedMode := none, slots := data }
  | _ =>
    { mode := .mock, persistedMode := some .mock,
      slots := (MOCK_slots.lookup (mockKey customerId dateStr resourceId)).getD [] }

/-! ## Appointment mutation (`updateAppointmentAPI`, part_000 lines 183-194) -/

/-- A JS value passed as `appointmentId` (a number, a string, or
null/undefined). -/
inductive JsVal
  | vnull
  | vnum (n : Int)
  | vstr (s : String)
  deriving DecidableEq

/-- JS truthiness of such a value. -/
def JsVal.truthy : JsVal → Bool
  | .vnull => false
  | .vnum n => n != 0
  | .vstr s => s != ""

/-- JS `String(v)`. -/
def JsVal.asString : JsVal → String
  | .vnull => "null"
  | .vnum n => toString n
  | .vstr s => s

/-- Parsed JSON reply of the update endpoint: `{ result, msg_en? }`. -/
structure ServerResp where
  result : String
  msg_en : Option String := none
  deriving DecidableEq

/-- Outcome of the POST transport, supplied as an oracle: a thrown
network/parse failure, or an HTTP reply with a status code and a parsed
body. -/
inductive PostOutcome
  | transportFail
  | reply (status : Nat) (resp : ServerResp)
  deriving DecidableEq

/-- Body `{ Appointment_Id, Notes, Status }` sent to the update
endpoint. -/
structure UpdateBody where
  Appointment_Id : String
  Notes : String
  Status : String
  deriving DecidableEq

/-- Result of a call: either the parsed body of a 2xx reply, or a thrown
error. -/
inductive CallResult
  | thrown (msg : String)
  | okResp (resp : ServerResp)
  deriving DecidableEq

/-- Model of `apiPostJson` (part_000 lines 123-140): throws on transport failure
and on `!r.ok` (non-2xx status), else returns the parsed JSON. -/
def apiPostJson (net : PostOutcome) : CallResult :=
  match net with
  | .transportFail => .thrown ("network error")
  | .reply status resp =>
    if 200 ≤ status && status ≤ 299 then .okResp resp
    else .thrown ("HTTP " ++ toString status)

/-- Observable behaviour of one `updateAppointmentAPI` call: whether any
network request was issued, the body sent (if any), and the result. -/
structure UpdateCall where
  networkCalled : Bool
  sentBody : Option UpdateBody
  callResult : CallResult
  deriving DecidableEq

/-- Model of `updateAppointmentAPI(appointmentId, statusValue, notesValue)`
(part_000 lines 183-194): `if (!appointmentId) throw` before any network
activity; otherwise builds the body and performs the real POST with no
mock fallback. -/
def updateAppointmentAPI (net : PostOutcome) (appointmentId : JsVal)
    (statusValue : Option String) (notesValue : Option String) : UpdateCall :=
  if !appointmentId.truthy then
    { networkCalled := false, sentBody := none,
      callResult := .thrown ("Missing Appointment_Id") }
  else
    let body : UpdateBody :=
      { Appointment_Id := appointmentId.asString,
        Notes := notesValue.getD (""),
        Status := statusValue.getD ("") }
    { networkCalled := true, sentBody := some body, callResult := apiPostJson net }

/-! ## `fetchAppointmentDetails` (main.js lines 148-177) -/

/-- The in-memory repository search step: only performed when the
`slotsMap` key exists, and the predicate requires both `appId` and the
slot's `Appoitment_Id` to be truthy before comparing their string
forms. -/
def detailsRepoSearch (slotsMap : List (String × List Slot)) (resourceId : String)
    (appId : Option Int) : Option Slot :=
  match slotsMap.lookup resourceId with
  | some lst =>
    lst.find? (fun s =>
      truthyId appId && truthyId s.Appoitment_Id &&
        (jsStrOfId s.Appoitment_Id == jsStrOfId appId))
  | none => none

/-- Observable result of `fetchAppointmentDetails`: the returned
slot-or-null and whether the network endpoint was hit. -/
structure DetailsResult where
  found : Option Slot
  networkIssued : Bool
  deriving DecidableEq

/-- Model of `fetchAppointmentDetails({customerId, dateStr, resourceId, appId, slotObj})`:
fast path on a provided `slotObj`; then the repository search; then the
slots endpoint (whose failures are absorbed into the fixture fallback),
returning null on an empty list, the id match if any, else the first
element (`return arr[0] || null`). -/
def fetchAppointmentDetails (slotsMap : List (String × List Slot)) (mode : Mode)
    (net : GetOutcome) (customerId : Int) (dateStr resourceId : String)
    (appId : Option Int) (slotObj : Option Slot) : DetailsResult :=
  match slotObj with
  | some s => { found := some s, networkIssued := false }
  | none =>
    match detailsRepoSearch slotsMap resourceId appId with
    | some f => { found := some f, networkIssued := false }
    | none =>
      let arr := (fetchSlotsForResource mode net customerId dateStr resourceId).slots
      match arr with
      | [] => { found := none, networkIssued := true }
      | a :: _ =>
        match (if truthyId appId then
                 arr.find? (fun s => jsStrOfId s.Appoitment_Id == jsStrOfId appId)
               else none) with
        | some f => { found := some f, networkIssued := true }
        | none => { found := some a, networkIssued := true }

/-! ## Tracker seeding on load (`loadAndRender`, main.js lines 577-589) -/

/-- Build a `registeredSlot` record from a slot of resource `resId`. -/
def regOfSlot (resId : String) (s : Slot) : Registration :=
  { Appoitment_Id := s.Appoitment_Id, Resource_Id := resId,
    TimeFrom := s.TimeFrom, TimeTo := s.TimeTo }

/-- The per-resource `forEach` body: every slot whose `Register_Id` is
truthy and equals the customer id overwrites `registeredSlot`. -/
def seedResource (customerId : Int) (resId : String) (slots : List Slot)
    (acc : Option Registration) : Option Registration :=
  slots.foldl
    (fun a s => if serverRegistered customerId s then some (regOfSlot resId s) else a)
    acc

/-- The tracker value after a fresh load, given the per-resource slot
lists in resource scan order (`fetched`): `registeredSlot = null`, then,
only when `RESPECT_SERVER_REGISTERED` is on, the per-resource loops run.
This is the sequential in-order model of the concurrent fan-out. -/
def seedRegisteredSlot (respectFlag : Bool) (customerId : Int)
    (fetched : List (String × List Slot)) : Option Registration :=
  if respectFlag then
    fetched.foldl (fun acc p => seedResource customerId p.1 p.2 acc) none
  else none

/-- The claim's reading of the seed (C5): the FIRST slot, in scan order
over resources then slots, whose `Register_Id` equals the session
customer id. -/
def firstSeedOfClaim (customerId : Int)
    (fetched : List (String × List Slot)) : Option Registration :=
  (((fetched.flatMap (fun p => p.2.map (fun s => (p.1, s)))).find?
      (fun q => q.2.Register_Id == some customerId)).map
    (fun q => regOfSlot q.1 q.2))

/-- The value the code actually keeps: the LAST slot in scan order whose
`Register_Id` is truthy and equals the customer id. -/
def lastSeedOfCode (customerId : Int)
    (fetched : List (String × List Slot)) : Option Registration :=
  (((fetched.flatMap (fun p => p.2.map (fun s => (p.1, s)))).reverse.find?
      (fun q => serverRegistered customerId q.2)).map
    (fun q => regOfSlot q.1 q.2))

/-! ## Mock register confirm (`handleModalConfirm`, register branch) -/

/-- Model of `handleModalConfirm('register', ctx)` (main.js lines 476-490): a new
id is synthesized (`Date.now()`, passed in here as `newId`), the tracker
is set, and the clicked slot object is stamped with the customer id and
the new appointment id. -/
def handleModalConfirmRegister (newId : Int) (customerId : Int) (resourceID : String)
    (slot : Slot) : Registration × Slot :=
  ({ Appoitment_Id := some newId, Resource_Id := resourceID,
     TimeFrom := slot.TimeFrom, TimeTo := slot.TimeTo },
   { slot with Register_Id := some customerId, Appoitment_Id := some newId })

/-! ## Editable view submit (`openViewModal` update button, part_000
lines 313-362, with the `onUpdated` callback of `openModal('update',...)`,
part_000 lines 597-624) -/

/-- The module-level mutable state the submit handler touches. -/
structure AppState where
  slotsMap : List (String × List Slot)
  registeredSlot : Option Registration
  deriving DecidableEq

/-- The closure context captured by the `onUpdated` callback when the
editable view was reached from the update flow:
`ctx.old`, `ctx.resource.ID` and `ctx.customerId`. -/
structure UpdateFlowCtx where
  old : Option Registration
  resourceID : String
  customerId : Int
  deriving DecidableEq

/-- Outcome of `await updateAppointmentAPI(...)` as seen by the submit
handler: a parsed reply object, a null reply, or a thrown error
(transport failure, non-2xx status, parse failure). -/
inductive MutationOutcome
  | reply (result : String) (msg_en : Option String)
  | replyNull
  | thrown
  deriving DecidableEq

/-- Observable result of one submit: the state afterwards, the (possibly
mutated) displayed slot object, whether `renderGrid` ran, whether the
full reload (`gridLoaderCaller`) was started, and the alert text shown. -/
structure SubmitResult where
  slotsMap : List (String × List Slot)
  registeredSlot : Option Registration
  slotObj : Slot
  rerendered : Bool
  reloadStarted : Bool
  alertText : String
  deriving DecidableEq

/-- The status→label map in the success branch:
`(statusVal === '2') ? 'Accepted' : (statusVal === '3') ? 'Rejected' : 'Pending'`. -/
def statusLabelOf (statusVal : String) : String :=
  if statusVal == "2" then ("Accepted")
  else if statusVal == "3" then ("Rejected")
  else ("Pending")

/-- JS `Number(s)` for the select values this handler receives
(`'1' | '2' | '3'`; `Number('') = 0`; a NaN result for non-numeric input
is outside the model and mapped to 0). -/
def jsNumber (s : String) : Int :=
  match s.data with
  | [] => 0
  | l => ((charsToNat l).getD 0 : Nat)

/-- In-place mutation of the first list element satisfying `p` (the
`find`-then-assign idiom of the source). -/
def patchFirst (p : Slot → Bool) (f : Slot → Slot) : List Slot → List Slot
  | [] => []
  | s :: rest => if p s then f s :: rest else s :: patchFirst p f rest

/-- Apply `f` to the list stored under key `k` (in-place array mutation
seen at the map level); identity when the key is absent. -/
def updateAt (k : String) (f : List Slot → List Slot) :
    List (String × List Slot) → List (String × List Slot)
  | [] => []
  | q :: rest => if q.1 == k then (q.1, f q.2) :: rest else q :: updateAt k f rest

/-- The key whose array the success branch patches:
`slotsMap[String(slotObj.Resource_Id)] || slotsMap[String(slotObj.ResourceId)] || []`
(an existing key wins even if its array is empty, since `[]` is truthy). -/
def updSuccessKey (m : List (String × List Slot)) (slotObj : Slot) : Option String :=
  if (m.lookup (jsStrS slotObj.Resource_Id)).isSome then
    some (jsStrS slotObj.Resource_Id)
  else if (m.lookup (jsStrS slotObj.ResourceId)).isSome then
    some (jsStrS slotObj.ResourceId)
  else none

/-- The field patch written to the repository copy of the slot in the
success branch. -/
def successPatch (statusVal notesVal : String) (s : Slot) : Slot :=
  { s with Status := some (jsNumber statusVal),
           Description_En := some (statusLabelOf statusVal),
           Description_Ar := some notesVal,
           Notes := some notesVal }

/-- The predicate locating the submitted slot in the repository:
`String(s.Appoitment_Id) === String(slotObj.Appoitment_Id)`. -/
def sameAppIdStr (aid : Option Int) (s : Slot) : Bool :=
  jsStrOfId s.Appoitment_Id == jsStrOfId aid

/-- The update button handler of the editable view.  `viaUpdate` is
`some ctx` when an `onUpdated` callback was installed (the view was
reached through the update flow), `none` otherwise.  On a reply whose
lower-cased `result` is `"success"` it patches the displayed slot object,
patches the repository copy, re-renders, starts the full reload, and runs
`onUpdated` (clear the old registration's `Register_Id`, stamp the new
slot, set the tracker, re-render).  On any other reply or a thrown error
it only reports failure. -/
def viewUpdateSubmit (st : AppState) (viaUpdate : Option UpdateFlowCtx) (slotObj : Slot)
    (statusVal notesVal : String) (outcome : MutationOutcome) : SubmitResult :=
  match outcome with
  | .thrown =>
    { slotsMap := st.slotsMap, registeredSlot := st.registeredSlot, slotObj := slotObj,
      rerendered := false, reloadStarted := false,
      alertText := "Failed to send update. See console for details (CORS/SSL issues possible)." }
  | .replyNull =>
    { slotsMap := st.slotsMap, registeredSlot := st.registeredSlot, slotObj := slotObj,
      rerendered := false, reloadStarted := false,
      alertText := "Update failed: Unknown response from server" }
  | .reply result msgEn =>
    if asciiLower result == "success" then
      let slot1 := successPatch statusVal notesVal slotObj
      let m1 :=
        match updSuccessKey st.slotsMap slot1 with
        | some k =>
          updateAt k
            (patchFirst (sameAppIdStr slot1.Appoitment_Id) (successPatch statusVal notesVal))
            st.slotsMap
        | none => st.slotsMap
      match viaUpdate with
      | none =>
        { slotsMap := m1, registeredSlot := st.registeredSlot, slotObj := slot1,
          rerendered := true, reloadStarted := true, alertText := "Update successful." }
      | some ctx =>
        let m2 :=
          match ctx.old with
          | some old =>
            if truthyId old.Appoitment_Id then
              updateAt old.Resource_Id
                (patchFirst (fun s => s.Appoitment_Id == old.Appoitment_Id)
                  (fun s => { s with Register_Id := none }))
                m1
            else m1
          | none => m1
        let slot2 := { slot1 with Register_Id := some ctx.customerId }
        { slotsMap := m2,
          registeredSlot := some
            { Appoitment_Id := slot2.Appoitment_Id, Resource_Id := ctx.resourceID,
              TimeFrom := slot2.TimeFrom, TimeTo := slot2.TimeTo },
          slotObj := slot2,
          rerendered := true, reloadStarted := true, alertText := "Update successful." }
    else
      let msg :=
        match msgEn with
        | some m => if m != "" then m else ("Unknown response from server")
        | none => "Unknown response from server"
      { slotsMap := st.slotsMap, registeredSlot := st.registeredSlot, slotObj := slotObj,
        rerendered := false, reloadStarted := false,
        alertText := "Update failed: " ++ msg }

/-! ## Theorems -/

/-- The ownedByMe guard as the spec words it, amended minimally after the
counterexample below: the server-ownership disjunct additionally requires
the slot's `Register_Id` to be present and non-zero. -/
def ownedByMeC3 (tracker : Option Registration) (respectFlag : Bool) (custId : Int)
    (s : Slot) : Bool :=
  (match tracker with
   | some reg => reg.Appoitment_Id == s.Appoitment_Id
   | none => false) ||
  (respectFlag && (match s.Register_Id with
   | some v => v != 0 && v == custId
   | none => false))

/-- Claim C3 (amended): on every slot click, exactly when the tracker
holds a registration whose appointment id equals the clicked slot's, or
the trust flag is on and the slot's `Register_Id` is present, non-zero
and equals the session customer id, only the already-registered notice is
surfaced; otherwise an empty tracker enters the register flow with the
clicked slot and its resource, and a non-empty tracker enters the update
flow with the current registration and the clicked slot. -/
theorem onSlotClick_dispatch (tracker : Option Registration) (respectFlag : Bool)
    (custId : Int) (s : Slot) (r : Resource) :
    (onSlotClick tracker respectFlag custId s r = .alreadyRegisteredNotice ↔
      ownedByMeC3 tracker respectFlag custId s = true)
    ∧ (ownedByMeC3 tracker respectFlag custId s = false → tracker = none →
        onSlotClick tracker respectFlag custId s r = .openRegister s r custId)
    ∧ (∀ reg, ownedByMeC3 tracker respectFlag custId s = false → tracker = some reg →
        onSlotClick tracker respectFlag custId s r = .openUpdate reg s r custId) := by
  have he : onSlotClick tracker respectFlag custId s r =
      (if ownedByMeC3 tracker respectFlag custId s then ClickOutcome.alreadyRegisteredNotice
       else
         match tracker with
         | none => ClickOutcome.openRegister s r custId
         | some reg => ClickOutcome.openUpdate reg s r custId) := rfl
  refine ⟨?_, ?_, ?_⟩
  · rw [he]
    cases h : ownedByMeC3 tracker respectFlag custId s with
    | true => simp
    | false =>
      simp only [Bool.false_eq_true, if_false, iff_false]
      cases tracker <;> simp
  · intro hown htr
    subst htr
    rw [he, hown]
    rfl
  · intro reg hown htr
    subst htr
    rw [he, hown]
    rfl

/-- Concrete slot for the C3 counterexample: `Register_Id` present and
equal to the session customer id `0`, but falsy in JS. -/
def c3Slot : Slot := { Register_Id := some 0 }

/-- Concrete resource for the C3 counterexample. -/
def c3Resource : Resource := { ID := "1" }

/-- Claim C3 as stated is false at this input: the trust flag is on and
the slot's `Register_Id` (0) equals the session customer id (0), yet the
register dialog opens instead of the already-registered notice. -/
theorem onSlotClick_zero_owner_counterexample :
    c3Slot.Register_Id = some 0 ∧
    onSlotClick none true 0 c3Slot c3Resource =
      ClickOutcome.openRegister c3Slot c3Resource 0 := by
  exact ⟨rfl, rfl⟩

/-- The renderer classification as the spec words it, amended minimally
after the counterexample below: both 'registered' disjuncts carry the
truthiness guard the code applies. -/
def specClassC4 (tracker : Option Registration) (respectFlag : Bool) (custId : Int)
    (s : Slot) : SlotClass :=
  if (match tracker with
      | some reg => truthyId reg.Appoitment_Id && reg.Appoitment_Id == s.Appoitment_Id
      | none => false) ||
     (respectFlag && (match s.Register_Id with
      | some v => v != 0 && v == custId
      | none => false)) then .registered
  else if s.Status == some 1 || availableTest s.Description_En then .available
  else .booked

/-- Claim C4 (amended): the renderer assigns exactly one of three classes
with the stated precedence — registered when the tracker holds a truthy
appointment id equal to the slot's (or the trust flag accepts a truthy
server `Register_Id` equal to the customer id), else available on status
code 1 or an "available" label (case-insensitive), else booked; when the
tracker matches, the slot is registered regardless of who the server says
owns it. -/
theorem classifySlot_spec (tracker : Option Registration) (respectFlag : Bool)
    (custId : Int) (s : Slot) :
    classifySlot tracker respectFlag custId s = specClassC4 tracker respectFlag custId s
    ∧ (∀ reg, tracker = some reg → truthyId reg.Appoitment_Id = true →
        reg.Appoitment_Id = s.Appoitment_Id →
        classifySlot tracker respectFlag custId s = .registered) := by
  constructor
  · rfl
  · intro reg htr htruthy heq
    subst htr
    have h1 : trackerShows (some reg) s = true := by
      unfold trackerShows
      rw [heq] at htruthy
      simp [heq, htruthy]
    unfold classifySlot
    rw [h1]
    rfl

/-- Concrete tracker value for the C4 counterexample (appointment id 0). -/
def c4Tracker : Registration :=
  { Appoitment_Id := some 0, Resource_Id := "1", TimeFrom := "", TimeTo := "" }

/-- Concrete slot for the C4 counterexample: same appointment id 0,
status 2, non-available label. -/
def c4Slot : Slot :=
  { Appoitment_Id := some 0, Status := some 2, Description_En := some ("Booked") }

/-- Claim C4 as stated is false at this input: the tracker's appointment
id equals the slot's, yet the renderer classifies the slot booked, not
registered, because the id `0` is falsy. -/
theorem classifySlot_zero_id_counterexample :
    c4Tracker.Appoitment_Id = c4Slot.Appoitment_Id ∧
    classifySlot (some c4Tracker) false 1 c4Slot = SlotClass.booked := by
  exact ⟨rfl, by decide⟩

/-- Claim C7: a falsy `appointmentId` fails locally with no network
activity; a truthy one always performs the real POST whose result is
exactly the transport's (no mock fallback): a 2xx reply parses, transport
failure and non-2xx statuses raise. -/
theorem updateAppointmentAPI_contract (net : PostOutcome) (appointmentId : JsVal)
    (statusValue notesValue : Option String) :
    (appointmentId.truthy = false →
      updateAppointmentAPI net appointmentId statusValue notesValue =
        { networkCalled := false, sentBody := none,
          callResult := .thrown ("Missing Appointment_Id") })
    ∧ (appointmentId.truthy = true →
        (updateAppointmentAPI net appointmentId statusValue notesValue).networkCalled = true
        ∧ (updateAppointmentAPI net appointmentId statusValue notesValue).callResult =
            apiPostJson net
        ∧ (net = .transportFail →
            (updateAppointmentAPI net appointmentId statusValue notesValue).callResult =
              .thrown ("network error"))
        ∧ (∀ status resp, net = .reply status resp → (status < 200 ∨ 299 < status) →
            (updateAppointmentAPI net appointmentId statusValue notesValue).callResult =
              .thrown ("HTTP " ++ toString status))
        ∧ (∀ status resp, net = .reply status resp → 200 ≤ status → status ≤ 299 →
            (updateAppointmentAPI net appointmentId statusValue notesValue).callResult =
              .okResp resp)) := by
  constructor
  · intro h
    unfold updateAppointmentAPI
    rw [h]
    rfl
  · intro h
    unfold updateAppointmentAPI
    rw [h]
    refine ⟨rfl, rfl, ?_, ?_, ?_⟩
    · intro hn; subst hn; rfl
    · intro status resp hn hbad
      subst hn
      unfold apiPostJson
      have : (200 ≤ status && status ≤ 299) = false := by
        rcases hbad with hlt | hgt <;> simp <;> omega
      simp [this]
    · intro status resp hn h1 h2
      subst hn
      unfold apiPostJson
      have : (200 ≤ status && status ≤ 299) = true := by simp [h1, h2]
      simp [this]

/-- Witness for C7 at concrete inputs: a null id fails locally; id 7909
with an HTTP 500 reply raises. -/
theorem updateAppointmentAPI_contract_witness :
    updateAppointmentAPI (.reply 500 { result := "x" }) JsVal.vnull (some ("2")) (some ("n")) =
      { networkCalled := false, sentBody := none,
        callResult := .thrown ("Missing Appointment_Id") }
    ∧ (updateAppointmentAPI (.reply 500 { result := "x" }) (JsVal.vnum 7909)
        (some ("2")) (some ("n"))).callResult = .thrown ("HTTP 500") := by
  constructor
  · exact (updateAppointmentAPI_contract (.reply 500 { result := "x" }) JsVal.vnull
      (some ("2")) (some ("n"))).1 rfl
  · exact ((updateAppointmentAPI_contract (.reply 500 { result := "x" }) (JsVal.vnum 7909)
      (some ("2")) (some ("n"))).2 (by decide)).2.2.2.1 500 { result := "x" } rfl (by omega)

/-- Claim C8: any transport/parse failure or `{result:"failed"}` reply
flips the mode flag to mock, persists it, and returns the fixture list
for the exact `customerId|date|resourceId` key (or `[]`); the error never
reaches the caller (the function is total). -/
theorem fetchSlotsForResource_fallback (mode : Mode) (net : GetOutcome)
    (customerId : Int) (dateStr resourceId : String)
    (hfail : net = .throwErr ∨ ∃ m, net = .failedResult m) :
    fetchSlotsForResource mode net customerId dateStr resourceId =
      { mode := .mock, persistedMode := some .mock,
        slots := (MOCK_slots.lookup (mockKey customerId dateStr resourceId)).getD [] } := by
  rcases hfail with h | ⟨m, h⟩ <;> subst h <;> cases mode <;> rfl

/-- Witness for C8 at a concrete input: a transport failure on the
fixture key `1|2025-11-03|1` lands in mock mode with the two fixture
slots. -/
theorem fetchSlotsForResource_fallback_witness :
    fetchSlotsForResource .live .throwErr 1 "2025-11-03" "1" =
      { mode := .mock, persistedMode := some .mock,
        slots := (MOCK_slots.lookup (mockKey 1 "2025-11-03" "1")).getD [] } := by
  exact fetchSlotsForResource_fallback .live .throwErr 1 "2025-11-03" "1" (Or.inl rfl)

/-- Witness for C3 at a concrete input: empty tracker, flag off, an
unowned slot enters the register flow. -/
theorem onSlotClick_dispatch_witness :
    onSlotClick none false 1 c3Slot c3Resource =
      ClickOutcome.openRegister c3Slot c3Resource 1 := by
  exact (onSlotClick_dispatch none false 1 c3Slot c3Resource).2.1 (by decide) rfl

/-- Tracker for the C4 witness (truthy id 7909). -/
def c4RegW : Registration :=
  { Appoitment_Id := some 7909, Resource_Id := "1", TimeFrom := "", TimeTo := "" }

/-- Slot for the C4 witness: same appointment id, but owned by customer
55 on the server. -/
def c4SlotW : Slot :=
  { Appoitment_Id := some 7909, Status := some 2, Register_Id := some 55 }

/-- Witness for C4 at a concrete input: the tracker match wins although
the server owner (55) differs from the session customer (99). -/
theorem classifySlot_spec_witness :
    classifySlot (some c4RegW) false 99 c4SlotW = SlotClass.registered := by
  exact (classifySlot_spec (some c4RegW) false 99 c4SlotW).2 c4RegW rfl (by decide) rfl

/-- A left fold that overwrites its accumulator on every match keeps the
LAST match (phrased through `find?` on the reversed list). -/
theorem foldl_keep_last {α β : Type} (p : α → Bool) (f : α → β) (l : List α) :
    ∀ acc : Option β,
      l.foldl (fun a x => if p x then some (f x) else a) acc =
        ((l.reverse.find? p).map (fun x => (some (f x) : Option β))).getD acc := by
  induction l using List.reverseRecOn with
  | nil => intro acc; rfl
  | append_singleton l x ih =>
    intro acc
    rw [List.foldl_append, List.reverse_append]
    simp only [List.foldl_cons, List.foldl_nil, List.reverse_singleton, List.singleton_append]
    cases hp : p x with
    | true => simp [List.find?, hp]
    | false => simp [List.find?, hp, ih acc]

/-- The per-resource seeding loops, flattened over the scan order. -/
theorem seed_foldl_flat (customerId : Int) (fetched : List (String × List Slot)) :
    ∀ acc, fetched.foldl (fun acc q => seedResource customerId q.1 q.2 acc) acc =
      (fetched.flatMap (fun q => q.2.map (fun s => (q.1, s)))).foldl
        (fun a q => if serverRegistered customerId q.2 then some (regOfSlot q.1 q.2) else a)
        acc := by
  induction fetched with
  | nil => intro acc; rfl
  | cons hd tl ih =>
    intro acc
    simp only [List.foldl_cons, List.flatMap_cons, List.foldl_append]
    rw [ih]
    congr 1
    unfold seedResource
    rw [List.foldl_map]

/-- Claim C5 (amended): with the trust flag on, a fresh load seeds the
tracker from the LAST slot — in scan order over resources, then within
each resource's slot list — whose `Register_Id` is present, non-zero and
equals the session customer id; with the flag off the tracker stays
null. -/
theorem seedRegisteredSlot_last (customerId : Int)
    (fetched : List (String × List Slot)) :
    seedRegisteredSlot true customerId fetched = lastSeedOfCode customerId fetched
    ∧ seedRegisteredSlot false customerId fetched = none := by
  constructor
  · have h0 : seedRegisteredSlot true customerId fetched =
        fetched.foldl (fun acc q => seedResource customerId q.1 q.2 acc) none := rfl
    rw [h0, seed_foldl_flat, foldl_keep_last]
    unfold lastSeedOfCode
    cases ((fetched.flatMap fun q => q.2.map fun s => (q.1, s)).reverse.find?
        fun q => serverRegistered customerId q.2) <;> rfl
  · rfl

/-- First fixture slot for the C5 counterexample (customer 1 owns it). -/
def c5SlotA : Slot :=
  { Appoitment_Id := some 7909, Register_Id := some 1,
    TimeFrom := "2025-11-03T09:00:00", TimeTo := "2025-11-03T09:30:00" }

/-- Second fixture slot for the C5 counterexample (customer 1 owns it
too). -/
def c5SlotB : Slot :=
  { Appoitment_Id := some 7910, Register_Id := some 1,
    TimeFrom := "2025-11-03T10:00:00", TimeTo := "2025-11-03T10:30:00" }

/-- One resource holding both matching slots, in scan order. -/
def c5Fetched : List (String × List Slot) := [("1", [c5SlotA, c5SlotB])]

/-- Claim C5 as stated is false at this input: the first slot whose
`Register_Id` equals the session customer id is 7909, but the load seeds
the tracker from 7910 — each later match overwrites the earlier one. -/
theorem seedRegisteredSlot_first_counterexample :
    firstSeedOfClaim 1 c5Fetched = some (regOfSlot ("1") c5SlotA) ∧
    seedRegisteredSlot true 1 c5Fetched = some (regOfSlot ("1") c5SlotB) ∧
    regOfSlot ("1") c5SlotB ≠ regOfSlot ("1") c5SlotA := by
  refine ⟨rfl, rfl, by decide⟩

/-- Claim C9: after a local register confirmation the renderer classifies
the stamped slot registered and the tracker holds its appointment id;
after a fresh load with the trust flag off the tracker is null again and
no slot whatsoever is classified registered. -/
theorem register_roundtrip (newId customerId : Int) (resourceID : String) (slot : Slot)
    (respectFlag : Bool) (fetched : List (String × List Slot)) (h : newId ≠ 0) :
    classifySlot (some (handleModalConfirmRegister newId customerId resourceID slot).1)
        respectFlag customerId
        (handleModalConfirmRegister newId customerId resourceID slot).2 = .registered
    ∧ (handleModalConfirmRegister newId customerId resourceID slot).1.Appoitment_Id =
        (handleModalConfirmRegister newId customerId resourceID slot).2.Appoitment_Id
    ∧ seedRegisteredSlot false customerId fetched = none
    ∧ (∀ s, classifySlot (seedRegisteredSlot false customerId fetched) false customerId s ≠
        .registered) := by
  refine ⟨?_, rfl, rfl, ?_⟩
  · have h1 : trackerShows
        (some (handleModalConfirmRegister newId customerId resourceID slot).1)
        (handleModalConfirmRegister newId customerId resourceID slot).2 = true := by
      unfold handleModalConfirmRegister trackerShows truthyId
      simp [h]
    unfold classifySlot
    rw [h1]
    rfl
  · intro s
    have h2 : seedRegisteredSlot false customerId fetched = none := rfl
    rw [h2]
    have h3 : (trackerShows none s || (false && serverRegistered customerId s)) = false := rfl
    unfold classifySlot
    rw [h3]
    simp only [Bool.false_eq_true, if_false]
    cases hc : (s.Status == some 1 || availableTest s.Description_En) <;> simp [hc]

/-- Slot for the C9 witness. -/
def c9Slot : Slot := { TimeFrom := "2025-11-03T09:00:00", TimeTo := "2025-11-03T09:30:00" }

/-- Witness for C9 at concrete inputs (`newId = 100`). -/
theorem register_roundtrip_witness :
    classifySlot (some (handleModalConfirmRegister 100 1 "1" c9Slot).1) false 1
        (handleModalConfirmRegister 100 1 "1" c9Slot).2 = .registered
    ∧ classifySlot (seedRegisteredSlot false 1 []) false 1
        (handleModalConfirmRegister 100 1 "1" c9Slot).2 ≠ .registered := by
  constructor
  · exact (register_roundtrip 100 1 "1" c9Slot false [] (by decide)).1
  · exact (register_roundtrip 100 1 "1" c9Slot false [] (by decide)).2.2.2
      (handleModalConfirmRegister 100 1 "1" c9Slot).2

/-- Claim C1: when the editable view's submit gets a reply whose result
is not "success" or the call throws, the repository (`slotsMap`), the
tracker (`registeredSlot`) and the displayed slot object are left exactly
as before, and a failure notice reaches the user — carrying the server's
`msg_en` when a non-empty one is present, else a generic text. -/
theorem viewUpdateSubmit_failure (st : AppState) (viaUpdate : Option UpdateFlowCtx)
    (slotObj : Slot) (statusVal notesVal : String) :
    ((viewUpdateSubmit st viaUpdate slotObj statusVal notesVal .thrown).slotsMap = st.slotsMap
      ∧ (viewUpdateSubmit st viaUpdate slotObj statusVal notesVal .thrown).registeredSlot =
          st.registeredSlot
      ∧ (viewUpdateSubmit st viaUpdate slotObj statusVal notesVal .thrown).slotObj = slotObj
      ∧ (viewUpdateSubmit st viaUpdate slotObj statusVal notesVal .thrown).alertText =
          "Failed to send update. See console for details (CORS/SSL issues possible).")
    ∧ (∀ result msgEn, asciiLower result ≠ "success" →
        (viewUpdateSubmit st viaUpdate slotObj statusVal notesVal
            (.reply result msgEn)).slotsMap = st.slotsMap
        ∧ (viewUpdateSubmit st viaUpdate slotObj statusVal notesVal
            (.reply result msgEn)).registeredSlot = st.registeredSlot
        ∧ (viewUpdateSubmit st viaUpdate slotObj statusVal notesVal
            (.reply result msgEn)).slotObj = slotObj
        ∧ (∀ m, msgEn = some m → m ≠ "" →
            (viewUpdateSubmit st viaUpdate slotObj statusVal notesVal
              (.reply result msgEn)).alertText = "Update failed: " ++ m)
        ∧ (msgEn = none →
            (viewUpdateSubmit st viaUpdate slotObj statusVal notesVal
              (.reply result msgEn)).alertText =
                "Update failed: Unknown response from server")) := by
  constructor
  · exact ⟨rfl, rfl, rfl, rfl⟩
  · intro result msgEn hres
    have hb : (asciiLower result == "success") = false := by
      simp only [beq_eq_false_iff_ne, ne_eq]
      exact hres
    simp only [viewUpdateSubmit, hb, Bool.false_eq_true, if_false]
    refine ⟨trivial, trivial, trivial, ?_, ?_⟩
    · intro m hm hne
      subst hm
      have hb2 : (m != "") = true := by
        simp only [bne_iff_ne, ne_eq]
        exact hne
      simp only [hb2, if_true]
    · intro hm
      subst hm
      rfl

/-- Displayed slot for the C1 witness (Scenario D shape). -/
def c1Slot : Slot :=
  { Appoitment_Id := some 7909, Resource_Id := some ("1"),
    TimeFrom := "2025-11-03T09:00:00", TimeTo := "2025-11-03T09:30:00", Status := some 1 }

/-- App state for the C1 witness. -/
def c1State : AppState := { slotsMap := [("1", [c1Slot])], registeredSlot := none }

/-- Witness for C1 at Scenario D's concrete input: reply
`{result:"failed", msg_en:"slot taken"}` leaves all state untouched and
the alert carries "slot taken". -/
theorem viewUpdateSubmit_failure_witness :
    (viewUpdateSubmit c1State none c1Slot ("2") "n"
        (.reply ("failed") (some ("slot taken")))).slotsMap = c1State.slotsMap
    ∧ (viewUpdateSubmit c1State none c1Slot ("2") "n"
        (.reply ("failed") (some ("slot taken")))).registeredSlot = c1State.registeredSlot
    ∧ (viewUpdateSubmit c1State none c1Slot ("2") "n"
        (.reply ("failed") (some ("slot taken")))).slotObj = c1Slot
    ∧ (viewUpdateSubmit c1State none c1Slot ("2") "n"
        (.reply ("failed") (some ("slot taken")))).alertText = "Update failed: slot taken" := by
  have h := (viewUpdateSubmit_failure c1State none c1Slot ("2") "n").2 "failed"
    (some ("slot taken")) (by decide)
  exact ⟨h.1, h.2.1, h.2.2.1, h.2.2.2.1 ("slot taken") rfl (by decide)⟩

/-- Claim C10 (amended): a provided `slotObj` is returned as-is with no
repository lookup and no network call; otherwise a repository hit is
returned without network; on a miss the fetch is issued (its failures
are absorbed by the fixture fallback) and null comes back exactly when
the resulting list is empty — a non-empty list yields the appointment-id
match if one exists, else the FIRST element of the list; the function is
total (never throws). -/
theorem fetchAppointmentDetails_contract (slotsMap : List (String × List Slot))
    (mode : Mode) (net : GetOutcome) (customerId : Int) (dateStr resourceId : String)
    (appId : Option Int) :
    (∀ s, fetchAppointmentDetails slotsMap mode net customerId dateStr resourceId appId (some s)
        = { found := some s, networkIssued := false })
    ∧ (∀ f, detailsRepoSearch slotsMap resourceId appId = some f →
        fetchAppointmentDetails slotsMap mode net customerId dateStr resourceId appId none
          = { found := some f, networkIssued := false })
    ∧ (detailsRepoSearch slotsMap resourceId appId = none →
        (fetchAppointmentDetails slotsMap mode net customerId dateStr resourceId appId
            none).networkIssued = true
        ∧ ((fetchSlotsForResource mode net customerId dateStr resourceId).slots = [] →
            (fetchAppointmentDetails slotsMap mode net customerId dateStr resourceId appId
              none).found = none)
        ∧ (∀ a rest,
            (fetchSlotsForResource mode net customerId dateStr resourceId).slots = a :: rest →
            (∀ g, (if truthyId appId then
                     (a :: rest).find?
                       (fun s => jsStrOfId s.Appoitment_Id == jsStrOfId appId)
                   else none) = some g →
              (fetchAppointmentDetails slotsMap mode net customerId dateStr resourceId appId
                none).found = some g)
            ∧ ((if truthyId appId then
                  (a :: rest).find? (fun s => jsStrOfId s.Appoitment_Id == jsStrOfId appId)
                else none) = none →
              (fetchAppointmentDetails slotsMap mode net customerId dateStr resourceId appId
                none).found = some a))) := by
  refine ⟨fun s => rfl, ?_, ?_⟩
  · intro f hf
    unfold fetchAppointmentDetails
    rw [hf]
  · intro h0
    refine ⟨?_, ?_, ?_⟩
    · unfold fetchAppointmentDetails
      rw [h0]
      cases harr : (fetchSlotsForResource mode net customerId dateStr resourceId).slots with
      | nil => simp [harr]
      | cons a rest =>
        simp only [harr]
        cases hf : (if truthyId appId then
            (a :: rest).find? (fun s => jsStrOfId s.Appoitment_Id == jsStrOfId appId)
          else none) <;> simp [hf]
    · intro harr
      unfold fetchAppointmentDetails
      rw [h0]
      simp only [harr]
    · intro a rest harr
      constructor
      · intro g hg
        unfold fetchAppointmentDetails
        rw [h0]
        simp only [harr, hg]
      · intro hg
        unfold fetchAppointmentDetails
        rw [h0]
        simp only [harr, hg]

/-- Slot for the C10 counterexample (appointment id 42, not 7). -/
def c10SlotX : Slot := { Appoitment_Id := some 42 }

/-- Claim C10 as stated is false at this input: repository miss, the
fetch succeeds with a list that does not contain appointment 7 — instead
of the claimed null, the first element of the list is returned. -/
theorem fetchAppointmentDetails_counterexample :
    c10SlotX.Appoitment_Id ≠ some 7 ∧
    fetchAppointmentDetails [] .live (.okSlots [c10SlotX]) 1 "2025-11-03" "1" (some 7) none
      = { found := some c10SlotX, networkIssued := true } := by
  exact ⟨by decide, rfl⟩

/-- Repository slot for the C10 witness. -/
def c10SlotY : Slot := { Appoitment_Id := some 7, Resource_Id := some ("1") }

/-- Repository for the C10 witness. -/
def c10Repo : List (String × List Slot) := [("1", [c10SlotY])]

/-- Witness for C10 at concrete inputs: the fast path returns the given
object untouched, and a repository hit is returned without any network
activity. -/
theorem fetchAppointmentDetails_contract_witness :
    fetchAppointmentDetails c10Repo .live .throwErr 1 "2025-11-03" "1" (some 7) (some c10SlotX)
      = { found := some c10SlotX, networkIssued := false }
    ∧ fetchAppointmentDetails c10Repo .live .throwErr 1 "2025-11-03" "1" (some 7) none
      = { found := some c10SlotY, networkIssued := false } := by
  constructor
  · exact (fetchAppointmentDetails_contract c10Repo .live .throwErr 1 "2025-11-03" "1"
      (some 7)).1 c10SlotX
  · exact (fetchAppointmentDetails_contract c10Repo .live .throwErr 1 "2025-11-03" "1"
      (some 7)).2.1 c10SlotY (by decide)

/-- A row timestamp expressed through its minute-of-day total. -/
def mkRowTime (y m d t : Nat) : RowTime := ⟨y, m, d, t / 60, t % 60⟩

/-- The key `timeKey` recovers the minute-of-day total. -/
theorem timeKey_mkRowTime (y m d t : Nat) : (mkRowTime y m d t).timeKey = t := by
  unfold mkRowTime RowTime.timeKey
  rw [Nat.mul_comm]
  exact Nat.div_add_mod t 60

/-- When `step` divides 60, the inner minute loop runs `60 / step`
times. -/
theorem minuteSteps_count (step k : Nat) (hpos : 0 < step) (hk : 60 = step * k) :
    (60 + step - 1) / step = k := by
  have h1 : 60 + step - 1 = (step - 1) + step * k := by omega
  rw [h1, Nat.add_mul_div_left _ _ hpos, Nat.div_eq_of_lt (by omega)]
  omega

/-- Closed form of the hour/minute double loop: one map over a single
index range of minute-of-day totals. -/
theorem generateRowTimesP_closed (step y m d k : Nat)
    (hpos : 0 < step) (hk : 60 = step * k) :
    ∀ n h0, ((List.range n).map (h0 + ·)).flatMap
        (fun h => (minuteSteps step).map (fun mn => (⟨y, m, d, h, mn⟩ : RowTime)))
      = (List.range (n * k)).map (fun i => mkRowTime y m d (h0 * 60 + i * step)) := by
  have hkpos : 0 < k := by
    rcases k with _ | k
    · simp at hk
    · omega
  have hstep60 : step ≤ 60 := by
    calc step = step * 1 := (Nat.mul_one step).symm
    _ ≤ step * k := Nat.mul_le_mul_left step hkpos
    _ = 60 := hk.symm
  have hm : minuteSteps step = (List.range k).map (· * step) := by
    unfold minuteSteps
    rw [minuteSteps_count step k hpos hk]
  intro n
  induction n with
  | zero => intro h0; simp
  | succ n ih =>
    intro h0
    rw [List.range_succ_eq_map, List.map_cons, List.flatMap_cons, List.map_map]
    have hmap : List.map ((fun x => h0 + x) ∘ Nat.succ) (List.range n)
        = List.map (fun x => (h0 + 1) + x) (List.range n) :=
      List.map_congr_left (fun a _ => by simp [Function.comp]; omega)
    rw [hmap, ih (h0 + 1)]
    have hn1 : (n + 1) * k = k + n * k := by
      rw [Nat.succ_mul]; omega
    rw [hn1, List.range_add, List.map_append, List.map_map]
    congr 1
    · rw [hm, List.map_map]
      refine List.map_congr_left (fun i hi => ?_)
      have hik : i < k := List.mem_range.mp hi
      have hlt : i * step < 60 := by
        have h2 : i * step ≤ (k - 1) * step :=
          Nat.mul_le_mul_right step (by omega)
        have h3 : (k - 1) * step = k * step - step := by
          rw [Nat.sub_mul, Nat.one_mul]
        have h4 : k * step = 60 := by rw [Nat.mul_comm]; omega
        omega
      have hdiv : (h0 * 60 + i * step) / 60 = h0 := by
        have e : h0 * 60 + i * step = i * step + 60 * h0 := by omega
        rw [e, Nat.add_mul_div_left _ _ (by omega), Nat.div_eq_of_lt hlt]
        omega
      have hmod : (h0 * 60 + i * step) % 60 = i * step := by
        have e : h0 * 60 + i * step = i * step + 60 * h0 := by omega
        rw [e, Nat.add_mul_mod_self_left, Nat.mod_eq_of_lt hlt]
      simp only [Function.comp]
      unfold mkRowTime
      rw [hdiv, hmod]
      simp
    · refine List.map_congr_left (fun i _ => ?_)
      simp only [Function.comp]
      congr 1
      have e : (k + i) * step = k * step + i * step := by rw [Nat.add_mul]
      have h4 : k * step = 60 := by rw [Nat.mul_comm]; omega
      omega

/-- Claim C6: for every well-formed `yyyy-mm-dd` date string and every
`stepMinutes` dividing 60 (start hour ≤ end hour), the row generator
returns `((endHour - startHour) + 1) * (60 / stepMinutes)` timestamps,
strictly increasing, the first at `startHour:00` and the last at
`endHour:(60 - stepMinutes)` on that date. -/
theorem generateRowTimes_property (dateStr : String) (startH endH step y m d : Nat)
    (hparse : parseYmd dateStr = some (y, m, d))
    (hdvd : step ∣ 60) (hpos : 0 < step) (hse : startH ≤ endH) :
    (generateRowTimesWith startH endH step dateStr).length
        = ((endH - startH) + 1) * (60 / step)
    ∧ List.Pairwise (fun a b => RowTime.timeKey a < RowTime.timeKey b)
        (generateRowTimesWith startH endH step dateStr)
    ∧ (generateRowTimesWith startH endH step dateStr).head? = some ⟨y, m, d, startH, 0⟩
    ∧ (generateRowTimesWith startH endH step dateStr).getLast?
        = some ⟨y, m, d, endH, 60 - step⟩ := by
  obtain ⟨k, hk⟩ := hdvd
  have hkpos : 0 < k := by
    rcases k with _ | k
    · simp at hk
    · omega
  have hstep60 : step ≤ 60 := by
    calc step = step * 1 := (Nat.mul_one step).symm
    _ ≤ step * k := Nat.mul_le_mul_left step hkpos
    _ = 60 := hk.symm
  have hk60 : 60 / step = k := by
    rw [hk, Nat.mul_div_cancel_left _ hpos]
  have hkstep : k * step = 60 := by rw [Nat.mul_comm]; omega
  have hrows : generateRowTimesWith startH endH step dateStr =
      (List.range ((endH + 1 - startH) * k)).map
        (fun i => mkRowTime y m d (startH * 60 + i * step)) := by
    unfold generateRowTimesWith
    rw [hparse]
    exact generateRowTimesP_closed step y m d k hpos hk (endH + 1 - startH) startH
  have htot : 0 < (endH + 1 - startH) * k := Nat.mul_pos (by omega) hkpos
  refine ⟨?_, ?_, ?_, ?_⟩
  · rw [hrows, List.length_map, List.length_range, hk60]
    congr 1
    omega
  · rw [hrows, List.pairwise_map]
    refine (List.pairwise_lt_range _).imp (fun hij => ?_)
    rw [timeKey_mkRowTime, timeKey_mkRowTime]
    have := (Nat.mul_lt_mul_right hpos).mpr hij
    omega
  · rw [hrows]
    obtain ⟨t, ht⟩ := Nat.exists_eq_succ_of_ne_zero (Nat.pos_iff_ne_zero.mp htot)
    rw [ht, List.range_succ_eq_map, List.map_cons, List.head?_cons]
    unfold mkRowTime
    have e1 : (startH * 60 + 0 * step) / 60 = startH := by
      rw [Nat.zero_mul, Nat.add_zero, Nat.mul_div_cancel _ (by omega)]
    have e2 : (startH * 60 + 0 * step) % 60 = 0 := by
      rw [Nat.zero_mul, Nat.add_zero, Nat.mul_mod_left]
    rw [e1, e2]
  · rw [hrows, List.getLast?_map]
    obtain ⟨t, ht⟩ := Nat.exists_eq_succ_of_ne_zero (Nat.pos_iff_ne_zero.mp htot)
    rw [ht, List.range_succ, List.getLast?_concat, Option.map_some']
    have hA : t = (endH + 1 - startH) * k - 1 := by omega
    have e3 : ((endH + 1 - startH) * k - 1) * step
        = (endH + 1 - startH) * 60 - step := by
      rw [Nat.sub_mul, Nat.one_mul, Nat.mul_assoc, hkstep]
    have e4 : startH * 60 + t * step = endH * 60 + (60 - step) := by
      have hA60 : 60 ≤ (endH + 1 - startH) * 60 := by
        have : 1 * 60 ≤ (endH + 1 - startH) * 60 :=
          Nat.mul_le_mul_right 60 (by omega)
        omega
      rw [hA, e3]
      omega
    unfold mkRowTime
    rw [e4]
    have e5 : (endH * 60 + (60 - step)) / 60 = endH := by
      have e : endH * 60 + (60 - step) = (60 - step) + 60 * endH := by omega
      rw [e, Nat.add_mul_div_left _ _ (by omega), Nat.div_eq_of_lt (by omega)]
      omega
    have e6 : (endH * 60 + (60 - step)) % 60 = 60 - step := by
      have e : endH * 60 + (60 - step) = (60 - step) + 60 * endH := by omega
      rw [e, Nat.add_mul_mod_self_left, Nat.mod_eq_of_lt (by omega)]
    rw [e5, e6]

/-- Witness for C6 at the configured CONFIG (8, 17, 30) on a concrete
date: 20 rows, first 08:00, last 17:30. -/
theorem generateRowTimes_property_witness :
    (generateRowTimesWith 8 17 30 "2025-11-03").length = ((17 - 8) + 1) * (60 / 30)
    ∧ (generateRowTimesWith 8 17 30 "2025-11-03").head? = some ⟨2025, 11, 3, 8, 0⟩
    ∧ (generateRowTimesWith 8 17 30 "2025-11-03").getLast?
        = some ⟨2025, 11, 3, 17, 60 - 30⟩ := by
  have h := generateRowTimes_property ("2025-11-03") 8 17 30 2025 11 3 (by decide)
    (by decide) (by decide) (by decide)
  exact ⟨h.1, h.2.2.1, h.2.2.2⟩

/-- Looking up the updated key sees the patched list. -/
theorem lookup_updateAt_self (k : String) (f : List Slot → List Slot)
    (m : List (String × List Slot)) :
    (updateAt k f m).lookup k = (m.lookup k).map f := by
  induction m with
  | nil => rfl
  | cons q rest ih =>
    obtain ⟨k1, v1⟩ := q
    by_cases h : k1 = k
    · subst h
      simp [updateAt, List.lookup]
    · have hb : (k1 == k) = false := by simp [h]
      have hb2 : (k == k1) = false := by
        simp only [beq_eq_false_iff_ne, ne_eq]
        exact fun he => h he.symm
      simp [updateAt, List.lookup, hb, hb2, ih]

/-- Looking up any other key is unaffected by the patch. -/
theorem lookup_updateAt_ne (k k1 : String) (hne : k1 ≠ k) (f : List Slot → List Slot)
    (m : List (String × List Slot)) :
    (updateAt k f m).lookup k1 = m.lookup k1 := by
  induction m with
  | nil => rfl
  | cons q rest ih =>
    obtain ⟨k2, v2⟩ := q
    by_cases h : k2 = k
    · subst h
      have hb : (k1 == k2) = false := by
        simp only [beq_eq_false_iff_ne, ne_eq]
        exact hne
      simp [updateAt, List.lookup, hb]
    · have hb : (k2 == k) = false := by simp [h]
      by_cases h2 : k1 = k2
      · subst h2
        simp [updateAt, List.lookup, hb]
      · have hb2 : (k1 == k2) = false := by
          simp only [beq_eq_false_iff_ne, ne_eq]
          exact h2
        simp [updateAt, List.lookup, hb, hb2, ih]

/-- Patching the first `p`-match is visible to a `p`-search as exactly
that element patched, when the patch preserves `p`. -/
theorem patchFirst_find?_self (p : Slot → Bool) (f : Slot → Slot)
    (hp : ∀ s, p (f s) = p s) (l : List Slot) :
    (patchFirst p f l).find? p = (l.find? p).map f := by
  induction l with
  | nil => rfl
  | cons s rest ih =>
    by_cases h : p s = true
    · have hfs : p (f s) = true := by rw [hp]; exact h
      simp [patchFirst, h, List.find?_cons_of_pos _ h, List.find?_cons_of_pos _ hfs]
    · have hb : p s = false := by revert h; cases p s <;> simp
      simp [patchFirst, hb, List.find?_cons_of_neg _ h, ih]

/-- Patching the first `p`-match is invisible to a `q`-search when `p`
and `q` never hold together and the patch preserves `q`. -/
theorem patchFirst_find?_other (p q : Slot → Bool) (f : Slot → Slot)
    (hdisj : ∀ s, p s = true → q s = false) (hq : ∀ s, q (f s) = q s) (l : List Slot) :
    (patchFirst p f l).find? q = l.find? q := by
  induction l with
  | nil => rfl
  | cons s rest ih =>
    by_cases h : p s = true
    · have hqs : q s = false := hdisj s h
      have hqfs : q (f s) = false := by rw [hq]; exact hqs
      have e1 : patchFirst p f (s :: rest) = f s :: rest := by simp [patchFirst, h]
      rw [e1, List.find?_cons_of_neg _ (by simp [hqfs]),
        List.find?_cons_of_neg _ (by simp [hqs])]
    · have hb : p s = false := by revert h; cases p s <;> simp
      by_cases h2 : q s = true
      · simp [patchFirst, hb, List.find?_cons_of_pos _ h2]
      · simp [patchFirst, hb, List.find?_cons_of_neg _ h2, ih]

/-- Reduced form of the submit handler on a success reply reached via the
update flow. -/
theorem viewUpdateSubmit_success_eq (st : AppState) (ctx : UpdateFlowCtx)
    (old : Registration) (slotObj : Slot) (statusVal notesVal result : String)
    (msgEn : Option String)
    (hres : (asciiLower result == "success") = true)
    (hkeyMatch : updSuccessKey st.slotsMap (successPatch statusVal notesVal slotObj)
        = some (jsStrS slotObj.Resource_Id))
    (hold : ctx.old = some old)
    (holdT : truthyId old.Appoitment_Id = true) :
    viewUpdateSubmit st (some ctx) slotObj statusVal notesVal (.reply result msgEn) =
      { slotsMap := updateAt old.Resource_Id
            (patchFirst (fun s => s.Appoitment_Id == old.Appoitment_Id)
              (fun s => { s with Register_Id := none }))
            (updateAt (jsStrS slotObj.Resource_Id)
              (patchFirst (sameAppIdStr slotObj.Appoitment_Id)
                (successPatch statusVal notesVal))
              st.slotsMap),
        registeredSlot := some
          { Appoitment_Id := slotObj.Appoitment_Id, Resource_Id := ctx.resourceID,
            TimeFrom := slotObj.TimeFrom, TimeTo := slotObj.TimeTo },
        slotObj := { successPatch statusVal notesVal slotObj with
          Register_Id := some ctx.customerId },
        rerendered := true, reloadStarted := true, alertText := "Update successful." } := by
  simp only [viewUpdateSubmit, hres, if_true, hold, holdT, hkeyMatch]
  rfl

/-- Claim C2: on a reply whose result equals "success" compared
case-insensitively, the slot located in the repository by the submitted
appointment id gets its Status, its human label (2→Accepted, 3→Rejected,
else Pending) and its Notes set to the submitted values; and since the
view was reached via the update flow, the previous registration's
repository slot loses its `Register_Id`, the tracker is set to the new
slot's `{Appoitment_Id, Resource_Id, TimeFrom, TimeTo}`, and a full grid
re-render is triggered. -/
theorem viewUpdateSubmit_success (st : AppState) (ctx : UpdateFlowCtx)
    (old : Registration) (slotObj : Slot) (statusVal notesVal result : String)
    (msgEn : Option String) (lNew : List Slot) (s0 p0 : Slot)
    (hres : asciiLower result = "success")
    (hkey : st.slotsMap.lookup (jsStrS slotObj.Resource_Id) = some lNew)
    (hfound : lNew.find? (sameAppIdStr slotObj.Appoitment_Id) = some s0)
    (hold : ctx.old = some old)
    (holdT : truthyId old.Appoitment_Id = true)
    (holdFind : ((st.slotsMap.lookup old.Resource_Id).getD []).find?
        (fun s => s.Appoitment_Id == old.Appoitment_Id) = some p0)
    (hne : jsStrOfId old.Appoitment_Id ≠ jsStrOfId slotObj.Appoitment_Id) :
    (∃ s1, (((viewUpdateSubmit st (some ctx) slotObj statusVal notesVal
              (.reply result msgEn)).slotsMap.lookup
            (jsStrS slotObj.Resource_Id)).getD []).find?
          (sameAppIdStr slotObj.Appoitment_Id) = some s1
        ∧ s1.Status = some (jsNumber statusVal)
        ∧ s1.Description_En = some (statusLabelOf statusVal)
        ∧ s1.Notes = some notesVal)
    ∧ (∃ s2, (((viewUpdateSubmit st (some ctx) slotObj statusVal notesVal
              (.reply result msgEn)).slotsMap.lookup old.Resource_Id).getD []).find?
          (fun s => s.Appoitment_Id == old.Appoitment_Id) = some s2
        ∧ s2.Register_Id = none)
    ∧ (viewUpdateSubmit st (some ctx) slotObj statusVal notesVal
        (.reply result msgEn)).registeredSlot = some
          { Appoitment_Id := slotObj.Appoitment_Id, Resource_Id := ctx.resourceID,
            TimeFrom := slotObj.TimeFrom, TimeTo := slotObj.TimeTo }
    ∧ (viewUpdateSubmit st (some ctx) slotObj statusVal notesVal
        (.reply result msgEn)).rerendered = true := by
  have hresb : (asciiLower result == "success") = true := by simp [hres]
  have hkeyMatch : updSuccessKey st.slotsMap (successPatch statusVal notesVal slotObj)
      = some (jsStrS slotObj.Resource_Id) := by
    unfold updSuccessKey
    have e : jsStrS (successPatch statusVal notesVal slotObj).Resource_Id
        = jsStrS slotObj.Resource_Id := rfl
    rw [e, hkey]
    simp
  have hr := viewUpdateSubmit_success_eq st ctx old slotObj statusVal notesVal result
    msgEn hresb hkeyMatch hold holdT
  have hdisjON : ∀ s, (fun s => s.Appoitment_Id == old.Appoitment_Id) s = true →
      sameAppIdStr slotObj.Appoitment_Id s = false := by
    intro s hs
    have h1 : s.Appoitment_Id = old.Appoitment_Id := beq_iff_eq.mp hs
    unfold sameAppIdStr
    rw [h1]
    simp only [beq_eq_false_iff_ne, ne_eq]
    exact hne
  have hdisjNO : ∀ s, sameAppIdStr slotObj.Appoitment_Id s = true →
      (fun s => s.Appoitment_Id == old.Appoitment_Id) s = false := by
    intro s hs
    have h1 : jsStrOfId s.Appoitment_Id = jsStrOfId slotObj.Appoitment_Id := by
      have h2 := hs
      unfold sameAppIdStr at h2
      exact beq_iff_eq.mp h2
    simp only
    cases hob : (s.Appoitment_Id == old.Appoitment_Id) with
    | false => rfl
    | true =>
      exfalso
      have h3 : s.Appoitment_Id = old.Appoitment_Id := beq_iff_eq.mp hob
      rw [h3] at h1
      exact hne h1
  have hO1 := patchFirst_find?_other (fun s => s.Appoitment_Id == old.Appoitment_Id)
    (sameAppIdStr slotObj.Appoitment_Id) (fun s => { s with Register_Id := none })
    hdisjON (fun s => rfl)
  have hO2 := patchFirst_find?_other (sameAppIdStr slotObj.Appoitment_Id)
    (fun s => s.Appoitment_Id == old.Appoitment_Id) (successPatch statusVal notesVal)
    hdisjNO (fun s => rfl)
  have hS1 := patchFirst_find?_self (sameAppIdStr slotObj.Appoitment_Id)
    (successPatch statusVal notesVal) (fun s => rfl)
  have hS2 := patchFirst_find?_self (fun s => s.Appoitment_Id == old.Appoitment_Id)
    (fun s => { s with Register_Id := none }) (fun s => rfl)
  rw [hr]
  dsimp only
  by_cases hkk : old.Resource_Id = jsStrS slotObj.Resource_Id
  · refine ⟨⟨successPatch statusVal notesVal s0, ?_, rfl, rfl, rfl⟩,
      ⟨{ p0 with Register_Id := none }, ?_, rfl⟩, rfl, rfl⟩
    · rw [hkk, lookup_updateAt_self, lookup_updateAt_self, hkey]
      simp only [Option.map_some', Option.getD_some]
      rw [hO1, hS1, hfound]
      rfl
    · rw [hkk] at holdFind ⊢
      rw [hkey] at holdFind
      simp only [Option.getD_some] at holdFind
      rw [lookup_updateAt_self, lookup_updateAt_self, hkey]
      simp only [Option.map_some', Option.getD_some]
      rw [hS2, hO2, holdFind]
      rfl
  · refine ⟨⟨successPatch statusVal notesVal s0, ?_, rfl, rfl, rfl⟩,
      ⟨{ p0 with Register_Id := none }, ?_, rfl⟩, rfl, rfl⟩
    · rw [lookup_updateAt_ne _ _ (fun h => hkk h.symm), lookup_updateAt_self, hkey]
      simp only [Option.map_some', Option.getD_some]
      rw [hS1, hfound]
      rfl
    · rw [lookup_updateAt_self, lookup_updateAt_ne _ _ hkk]
      cases hL : st.slotsMap.lookup old.Resource_Id with
      | none =>
        rw [hL] at holdFind
        simp at holdFind
      | some lOld =>
        rw [hL] at holdFind
        simp only [Option.getD_some] at holdFind
        simp only [Option.map_some', Option.getD_some]
        rw [hS2, holdFind]
        rfl

/-- New slot for the C2 witness (the one the editable view submits). -/
def c2NewSlot : Slot :=
  { Appoitment_Id := some 500, Resource_Id := some ("2"),
    TimeFrom := "2025-11-03T10:00:00", TimeTo := "2025-11-03T10:30:00", Status := some 1 }

/-- Previous registration for the C2 witness. -/
def c2OldReg : Registration :=
  { Appoitment_Id := some 7909, Resource_Id := "1",
    TimeFrom := "2025-11-03T09:00:00", TimeTo := "2025-11-03T09:30:00" }

/-- Repository slot of the previous registration for the C2 witness. -/
def c2OldSlot : Slot :=
  { Appoitment_Id := some 7909, Resource_Id := some ("1"), Register_Id := some 1,
    TimeFrom := "2025-11-03T09:00:00", TimeTo := "2025-11-03T09:30:00", Status := some 1 }

/-- App state for the C2 witness. -/
def c2State : AppState :=
  { slotsMap := [("1", [c2OldSlot]), ("2", [c2NewSlot])],
    registeredSlot := some c2OldReg }

/-- Update-flow context for the C2 witness. -/
def c2Ctx : UpdateFlowCtx := { old := some c2OldReg, resourceID := "2", customerId := 1 }

/-- Witness for C2 at Scenario C's concrete input: reply
`{result:"Success"}` with status "2" and notes "confirmed". -/
theorem viewUpdateSubmit_success_witness :
    (∃ s1, (((viewUpdateSubmit c2State (some c2Ctx) c2NewSlot ("2") "confirmed"
              (.reply ("Success") none)).slotsMap.lookup
            (jsStrS c2NewSlot.Resource_Id)).getD []).find?
          (sameAppIdStr c2NewSlot.Appoitment_Id) = some s1
        ∧ s1.Status = some (jsNumber ("2"))
        ∧ s1.Description_En = some (statusLabelOf ("2"))
        ∧ s1.Notes = some ("confirmed"))
    ∧ (∃ s2, (((viewUpdateSubmit c2State (some c2Ctx) c2NewSlot ("2") "confirmed"
              (.reply ("Success") none)).slotsMap.lookup c2OldReg.Resource_Id).getD
            []).find? (fun s => s.Appoitment_Id == c2OldReg.Appoitment_Id) = some s2
        ∧ s2.Register_Id = none)
    ∧ (viewUpdateSubmit c2State (some c2Ctx) c2NewSlot ("2") "confirmed"
        (.reply ("Success") none)).registeredSlot = some
          { Appoitment_Id := c2NewSlot.Appoitment_Id, Resource_Id := c2Ctx.resourceID,
            TimeFrom := c2NewSlot.TimeFrom, TimeTo := c2NewSlot.TimeTo }
    ∧ (viewUpdateSubmit c2State (some c2Ctx) c2NewSlot ("2") "confirmed"
        (.reply ("Success") none)).rerendered = true := by
  exact viewUpdateSubmit_success c2State c2Ctx c2OldReg c2NewSlot ("2") "confirmed"
    "Success" none [c2NewSlot] c2NewSlot c2OldSlot
    (by decide) (by decide) (by decide) rfl (by decide) (by decide) (by decide)

end MasterFit
